import Mathlib

/-!
Verification of the TravelAgent_FetchAI repository (hotel_backend.py and
google_places_client.py) against its natural-language specification.

The Python source is shallowly embedded: JSON values become an inductive
type, Python truthiness and the `x or y` idiom become `truthy`/`pyOr`,
fallible operations return `Option`, and the two effectful boundaries
(credentials, the Bright Data HTTP call) become explicit parameters.
Machine floats are modelled as rationals: every numeric value the claims
exercise (digit-run prices, small ratings, night counts) is exactly
representable, so no rounding of the binary representation is observable.
-/

namespace TravelAgent

/-- A JSON value as produced by Python's `json` module: `null` is Python
`None`, objects are `dict`s in insertion order (keys unique), arrays are
`list`s.  Numbers are modelled as rationals. -/
inductive JSON where
  | null : JSON
  | bool : Bool → JSON
  | num : Rat → JSON
  | str : String → JSON
  | arr : List JSON → JSON
  | obj : List (String × JSON) → JSON

/-- Python truthiness of a JSON value: `None`, `False`, `0`, `""`, `[]`
and the empty dict are falsy, everything else is truthy. -/
def truthy : JSON → Bool
  | .null => false
  | .bool b => b
  | .num q => q != 0
  | .str s => s != ""
  | .arr l => !l.isEmpty
  | .obj l => !l.isEmpty

/-- Embedding of `d.get(k)` on a Python dict holding JSON values: a missing key yields
`None`, which coincides with a stored JSON `null` (exactly as in Python,
where both come back as `None`). -/
def jget (fields : List (String × JSON)) (k : String) : JSON :=
  match fields.lookup k with
  | some v => v
  | none => .null

/-- Python's `a or b` on JSON values: `a` when `a` is truthy, else `b`. -/
def pyOr (a b : JSON) : JSON := if truthy a then a else b

/-- Decimal value of a list of ASCII digit characters. -/
def digitsVal (l : List Char) : Nat :=
  l.foldl (fun a c => a * 10 + (c.toNat - 48)) 0

/-- Ten to the `n` as a rational, by plain recursion so it reduces in the kernel. -/
def pow10 : Nat → Rat
  | 0 => 1
  | n + 1 => 10 * pow10 n

/-- Rendering of a rational, standing in for Python `str()` of a number.
Nonempty for every input; the claims never compare renderings of numbers. -/
def ratStr (q : Rat) : String :=
  if q.den = 1 then toString q.num else toString q.num ++ "/" ++ toString q.den

mutual
/-- Python `str()` (`reprMode = false`) / `repr()` (`reprMode = true`) of a
JSON value.  Containers render their elements with `repr`, strings get
quotes in repr mode.  (Python's escaping of quote characters inside
strings is not modelled; no claim exercises it.) -/
def pyStrM : Bool → JSON → String
  | reprMode, .str s => if reprMode then "\x27" ++ s ++ "\x27" else s
  | _, .null => "None"
  | _, .bool b => if b then "True" else "False"
  | _, .num q => ratStr q
  | _, .arr l => "[" ++ pyJoinElems l ++ "]"
  | _, .obj l => "\x7b" ++ pyJoinFields l ++ "\x7d"
def pyJoinElems : List JSON → String
  | [] => ""
  | [v] => pyStrM true v
  | v :: t => pyStrM true v ++ ", " ++ pyJoinElems t
def pyJoinFields : List (String × JSON) → String
  | [] => ""
  | [(k, v)] => "\x27" ++ k ++ "\x27: " ++ pyStrM true v
  | (k, v) :: t => "\x27" ++ k ++ "\x27: " ++ pyStrM true v ++ ", " ++ pyJoinFields t
end

/-- Python `str()` of a JSON value. -/
def pyStr (v : JSON) : String := pyStrM false v

/-- Exponent digits of a float literal: nonempty, all digits. -/
def expDigits (l : List Char) : Option Int :=
  if !l.isEmpty && l.all Char.isDigit then some (digitsVal l) else none

/-- The optional exponent tail of a float literal (`e`/`E`, optional sign,
digits); `[]` means exponent `0`; anything else fails. -/
def parseExpPart : List Char → Option Int
  | [] => some 0
  | c :: t =>
    if c = 'e' || c = 'E' then
      match t with
      | '+' :: u => expDigits u
      | '-' :: u => (expDigits u).map Int.neg
      | u => expDigits u
    else none

/-- Scale a rational by a (possibly negative) power of ten. -/
def applyExp (q : Rat) (e : Int) : Rat :=
  if 0 ≤ e then q * pow10 e.toNat else q / pow10 (-e).toNat

/-- Unsigned part of Python `float(str)`: `digits`, `digits.`, `digits.digits`
or `.digits`, with an optional exponent; the whole input must be consumed. -/
def parseUnsignedFloat (l : List Char) : Option Rat :=
  let ds := l.takeWhile Char.isDigit
  let r1 := l.dropWhile Char.isDigit
  match r1 with
  | '.' :: r2 =>
    let fs := r2.takeWhile Char.isDigit
    let r3 := r2.dropWhile Char.isDigit
    if ds.isEmpty && fs.isEmpty then none
    else (parseExpPart r3).map fun e =>
      applyExp ((digitsVal ds : Rat) + (digitsVal fs : Rat) / pow10 fs.length) e
  | _ =>
    if ds.isEmpty then none
    else (parseExpPart r1).map fun e => applyExp ((digitsVal ds : Rat)) e

/-- Python `float(str)` on the decimal forms the backend can meet:
surrounding ASCII whitespace is stripped, then an optional sign and a
decimal literal with optional exponent.  (`inf`, `nan` and underscore
separators are not modelled; no claim exercises them.) -/
def pyFloatOfString (s : String) : Option Rat :=
  let l := s.data.dropWhile Char.isWhitespace
  let l := (l.reverse.dropWhile Char.isWhitespace).reverse
  match l with
  | '+' :: t => parseUnsignedFloat t
  | '-' :: t => (parseUnsignedFloat t).map Neg.neg
  | t => parseUnsignedFloat t

/-- Embedding of `_to_float` from `hotel_backend.py`: `float(v)` with every exception
turned into `None`.  `float` succeeds on numbers, booleans and parseable
strings, and raises on `None`, lists and dicts. -/
def _to_float : JSON → Option Rat
  | .num q => some q
  | .bool b => some (if b then 1 else 0)
  | .str s => pyFloatOfString s
  | _ => none

/-- Leftmost match of the regex `\d[\d,]*`: scan to the first digit, then
take the longest run of digits and commas. -/
def priceRun : List Char → Option (List Char)
  | [] => none
  | c :: t =>
    if c.isDigit then some (c :: t.takeWhile (fun d => d.isDigit || d = ','))
    else priceRun t

/-- Embedding of `_to_price_usd` from `hotel_backend.py`: `None` for a missing or empty
text, else search for `\d[\d,]*`, strip the commas and parse the digits
(`None` when no digit occurs). -/
def _to_price_usd : Option String → Option Rat
  | none => none
  | some s =>
    if s = "" then none
    else
      match priceRun s.data with
      | some run => some ((digitsVal (run.filter (fun c => c != ','))) : Rat)
      | none => none

/-- Python `s.startswith(p)`. -/
def pyStartsWith (s p : String) : Bool := p.data.isPrefixOf s.data

/-- Embedding of `URL_KEYS` from `hotel_backend.py`.  In the source this is a Python
`set`, whose iteration order is unspecified; the embedding fixes the
source-literal order.  Every claim proved below is insensitive to the
order (any accepted value starts with `http`). -/
def URL_KEYS : List String :=
  ["url", "link", "g_url", "maps_url", "hotel_url", "booking_url", "result_url", "place_link"]

/-- The loop body of `_pick_url`: return the first key whose value is a
string starting with `http`. -/
def pickUrlGo (fields : List (String × JSON)) : List String → Option String
  | [] => none
  | k :: t =>
    match jget fields k with
    | .str v => if pyStartsWith v "http" then some v else pickUrlGo fields t
    | _ => pickUrlGo fields t

/-- Embedding of `_pick_url` from `hotel_backend.py`. -/
def _pick_url (fields : List (String × JSON)) : Option String :=
  pickUrlGo fields URL_KEYS

/-- Alias chain `node.get("name") or node.get("title")`. -/
def nameOf (f : List (String × JSON)) : JSON := pyOr (jget f "name") (jget f "title")

/-- Alias chain `node.get("overall_rating") or node.get("rating") or node.get("stars")
or node.get("star_rating")`. -/
def ratingOf (f : List (String × JSON)) : JSON :=
  pyOr (jget f "overall_rating") (pyOr (jget f "rating") (pyOr (jget f "stars") (jget f "star_rating")))

/-- Alias chain `node.get("price_text") or node.get("price") or node.get("rate") or
node.get("rate_per_night")`. -/
def priceTextOf (f : List (String × JSON)) : JSON :=
  pyOr (jget f "price_text") (pyOr (jget f "price") (pyOr (jget f "rate") (jget f "rate_per_night")))

/-- Alias chain `node.get("address") or node.get("neighborhood") or node.get("vicinity")
or node.get("location")`. -/
def addressOf (f : List (String × JSON)) : JSON :=
  pyOr (jget f "address") (pyOr (jget f "neighborhood") (pyOr (jget f "vicinity") (jget f "location")))

/-- The guard `if name and (rating or price_text)` of `walk`. -/
def qualifies (f : List (String × JSON)) : Bool :=
  truthy (nameOf f) && (truthy (ratingOf f) || truthy (priceTextOf f))

/-- The intermediate record `walk` appends to `found`. -/
structure Candidate where
  name : String
  rating : Option Rat
  price_text : Option String
  address : JSON
  url : Option String

/-- The dict literal appended by `walk` for a qualifying object node. -/
def candidateOf (f : List (String × JSON)) : Candidate :=
  { name := pyStr (nameOf f)
  , rating := _to_float (ratingOf f)
  , price_text := match priceTextOf f with | .null => none | v => some (pyStr v)
  , address := addressOf f
  , url := _pick_url f }

mutual
/-- Embedding of `walk` from `_extract_hotels_from_serp_json`, returning the `found`
list it accumulates: a dict contributes a candidate when the guard holds
and then every value is walked in insertion order; a list walks every
element in order; scalars contribute nothing. -/
def walk : JSON → List Candidate
  | .obj fields => (if qualifies fields then [candidateOf fields] else []) ++ walkFields fields
  | .arr elts => walkElems elts
  | _ => []
def walkFields : List (String × JSON) → List Candidate
  | [] => []
  | (_, v) :: t => walk v ++ walkFields t
def walkElems : List JSON → List Candidate
  | [] => []
  | v :: t => walk v ++ walkElems t
end

mutual
/-- All object nodes of a JSON tree in depth-first pre-order (each node
before its children, dict values and list elements in order).  This is
the traversal the spec describes, written independently of `walk`. -/
def objNodes : JSON → List (List (String × JSON))
  | .obj fields => fields :: objNodesFields fields
  | .arr elts => objNodesElems elts
  | _ => []
def objNodesFields : List (String × JSON) → List (List (String × JSON))
  | [] => []
  | (_, v) :: t => objNodes v ++ objNodesFields t
def objNodesElems : List JSON → List (List (String × JSON))
  | [] => []
  | v :: t => objNodes v ++ objNodesElems t
end

/-- One entry of the list `_extract_hotels_from_serp_json` returns. -/
structure Row where
  name : String
  rating : Option Rat
  area : JSON
  price_usd : Option Rat
  url : Option String

/-- The dict appended to `out` for a kept candidate. -/
def rowOf (c : Candidate) : Row :=
  { name := c.name
  , rating := c.rating
  , area := c.address
  , price_usd := _to_price_usd c.price_text
  , url := c.url }

/-- The dedup-and-truncate loop of `_extract_hotels_from_serp_json`:
skip a candidate whose name was seen, otherwise append its row and stop
as soon as `len(out) >= limit`. -/
def postGo : List Candidate → List String → List Row → Int → List Row
  | [], _, out, _ => out.reverse
  | c :: t, seen, out, limit =>
    if c.name ∈ seen then postGo t seen out limit
    else
      let out' := rowOf c :: out
      if limit ≤ (out'.length : Int) then out'.reverse
      else postGo t (c.name :: seen) out' limit

/-- Embedding of `_extract_hotels_from_serp_json` from `hotel_backend.py`. -/
def _extract_hotels_from_serp_json (data : JSON) (limit : Int) : List Row :=
  postGo (walk data) [] [] limit

/-- First-occurrence deduplication by name, written from the spec's words
("keep the first occurrence per distinct name, drop subsequent
duplicates"), independently of the loop above. -/
def dedupGo : List String → List Candidate → List Candidate
  | _, [] => []
  | seen, c :: t => if c.name ∈ seen then dedupGo seen t else c :: dedupGo (c.name :: seen) t

/-- Deduplicated candidate list, first occurrence per name, order kept. -/
def dedupByName (l : List Candidate) : List Candidate := dedupGo [] l

/-- A parsed calendar date. -/
structure Date where
  year : Nat
  month : Nat
  day : Nat
  deriving DecidableEq

/-- Gregorian leap-year test, as in Python's `datetime`. -/
def isLeap (y : Nat) : Bool := (y % 4 = 0 && y % 100 ≠ 0) || y % 400 = 0

/-- Length of a month. -/
def daysInMonth (y m : Nat) : Nat :=
  if m = 2 then (if isLeap y then 29 else 28)
  else if m = 4 || m = 6 || m = 9 || m = 11 then 30 else 31

/-- Days in the months strictly before month `m` of year `y`. -/
def daysBeforeMonth (y m : Nat) : Nat :=
  (List.range (m - 1)).foldl (fun a i => a + daysInMonth y (i + 1)) 0

/-- Embedding of `date.toordinal()`: day number of a date in the proleptic Gregorian
calendar, so that differences are whole-day differences. -/
def toOrdinal (d : Date) : Int :=
  let py := d.year - 1
  ((365 * py + py / 4 - py / 100 + py / 400 + daysBeforeMonth d.year d.month + d.day : Nat) : Int)

/-- Split a character list at every `-`, like Python `s.split("-")`. -/
def splitDash : List Char → List (List Char)
  | [] => [[]]
  | '-' :: t => [] :: splitDash t
  | c :: t =>
    match splitDash t with
    | h :: r => (c :: h) :: r
    | [] => [[c]]

/-- All characters are ASCII digits. -/
def allDigits (l : List Char) : Bool := l.all Char.isDigit

/-- Embedding of `datetime.strptime(s, "%Y-%m-%d").date()` as a total function:
exactly three dash-separated groups, a four-digit year, one- or two-digit
month and day, month in 1..12, day at least 1 and within the month, year
at least 1 (the pattern `\d\d\d\d` also admits `0000`, which the
`datetime` constructor then rejects).  `none` models the raised
`ValueError`. -/
def parseDate (s : String) : Option Date :=
  match splitDash s.data with
  | [ys, ms, ds] =>
    if ys.length = 4 && allDigits ys
        && 1 ≤ ms.length && ms.length ≤ 2 && allDigits ms
        && 1 ≤ ds.length && ds.length ≤ 2 && allDigits ds then
      let y := digitsVal ys
      let m := digitsVal ms
      let d := digitsVal ds
      if 1 ≤ y && 1 ≤ m && m ≤ 12 && 1 ≤ d && d ≤ daysInMonth y m then some ⟨y, m, d⟩
      else none
    else none
  | _ => none

/-- Embedding of `_nights` from `hotel_backend.py`: `max(1, (d1 - d0).days)` when both
strings parse, `1` on any parse failure.  Total — the `except` clause of
the source is the `none` branches here, so it never raises. -/
def _nights (checkin checkout : String) : Int :=
  match parseDate checkin, parseDate checkout with
  | some d0, some d1 => max 1 (toOrdinal d1 - toOrdinal d0)
  | _, _ => 1

/-- UTF-8 bytes of a character (as `Nat`s below 256). -/
def utf8Bytes (c : Char) : List Nat :=
  let n := c.toNat
  if n < 128 then [n]
  else if n < 2048 then [192 + n / 64, 128 + n % 64]
  else if n < 65536 then [224 + n / 4096, 128 + (n / 64) % 64, 128 + n % 64]
  else [240 + n / 262144, 128 + (n / 4096) % 64, 128 + (n / 64) % 64, 128 + n % 64]

/-- Upper-case hex digit of a value below 16. -/
def hexDigit (n : Nat) : Char := if n < 10 then Char.ofNat (48 + n) else Char.ofNat (55 + n)

/-- Bytes `urllib.parse.quote_plus` leaves unescaped: ASCII letters,
digits, `_`, `.`, `-`, `~`. -/
def isSafeByte (n : Nat) : Bool :=
  (65 ≤ n && n ≤ 90) || (97 ≤ n && n ≤ 122) || (48 ≤ n && n ≤ 57)
    || n = 95 || n = 46 || n = 45 || n = 126

/-- Encoding of a single byte under `quote_plus`: safe bytes pass, a space
becomes `+`, everything else becomes `%XX`. -/
def quoteByte (n : Nat) : List Char :=
  if isSafeByte n then [Char.ofNat n]
  else if n = 32 then ['+']
  else ['%', hexDigit (n / 16), hexDigit (n % 16)]

/-- Embedding of `urllib.parse.quote_plus` on a string. -/
def quote_plus (s : String) : String :=
  ⟨(((s.data.map utf8Bytes).flatten).map quoteByte).flatten⟩

/-- Embedding of `CITY_MAP` from `hotel_backend.py`, verbatim. -/
def CITY_MAP : List (String × String) :=
  [("NYC", "New York"), ("JFK", "New York"), ("LGA", "New York"), ("EWR", "New York"),
   ("MIA", "Miami"), ("FLL", "Fort Lauderdale"), ("MCO", "Orlando"),
   ("LAX", "Los Angeles"), ("SFO", "San Francisco"), ("SEA", "Seattle"),
   ("BOS", "Boston"), ("DFW", "Dallas"), ("ORD", "Chicago"),
   ("IAD", "Washington"), ("DCA", "Washington"), ("LAS", "Las Vegas"), ("PHX", "Phoenix")]

/-- ASCII upper-casing of a character, as `str.upper` acts on the ASCII
range (the `CITY_MAP` keys are all ASCII; Python's Unicode case mapping
beyond ASCII is not modelled). -/
def pyUpperChar (c : Char) : Char :=
  if 'a' ≤ c ∧ c ≤ 'z' then Char.ofNat (c.toNat - 32) else c

/-- ASCII `str.upper`. -/
def pyUpper (s : String) : String := ⟨s.data.map pyUpperChar⟩

/-- Embedding of `CITY_MAP.get(city_or_iata.upper(), city_or_iata)` from line 113. -/
def resolveCity (s : String) : String := (CITY_MAP.lookup (pyUpper s)).getD s

/-- Round a rational to an integer, ties to even, as Python `round`. -/
def roundHalfEven (x : Rat) : Int :=
  let f := x.floor
  let r := x - f
  if r < (1 : Rat) / 2 then f
  else if (1 : Rat) / 2 < r then f + 1
  else if f % 2 = 0 then f else f + 1

/-- Embedding of `round(x, 2)`: round to two decimal places, ties to even.  In the
pipeline the argument is always a whole number (prices come from digit
runs), so the rounding is exact. -/
def round2 (q : Rat) : Rat := ((roundHalfEven (q * 100) : Int) : Rat) / 100

/-- The Google-Maps fallback URL of lines 142-144:
`https://www.google.com/maps/search/?api=1&query=` followed by
`quote_plus(f"(name) (city)")`. -/
def fallbackUrl (name city : String) : String :=
  "https://www.google.com/maps/search/?api=1&query=" ++ quote_plus (name ++ " " ++ city)

/-- The final record shape returned by `search_hotels_google`. -/
structure HotelRecord where
  name : String
  area : JSON
  stars : Rat
  price_per_night_usd : Option Rat
  total_usd : Option Rat
  url : String

/-- The loop body of lines 134-154 of `hotel_backend.py`, assembling one
output record from one extracted row:
`name = r.get("name") or "Hotel"`, `area = r.get("area") or "Central"`,
`stars = float(r.get("rating") or 3.5)`,
`total = p * nights if p is numeric else None`,
`total_usd = round(total, 2) if total else None`,
`url = r.get("url") or fallback`. -/
def assembleRow (nights : Int) (city : String) (r : Row) : HotelRecord :=
  { name := if r.name ≠ "" then r.name else "Hotel"
  , area := if truthy r.area then r.area else .str "Central"
  , stars := match r.rating with
      | some q => if q ≠ 0 then q else (7 : Rat) / 2
      | none => (7 : Rat) / 2
  , price_per_night_usd := r.price_usd
  , total_usd := match r.price_usd.map (fun q => q * (nights : Rat)) with
      | some t => if t ≠ 0 then some (round2 t) else none
      | none => none
  , url := match r.url with
      | some u => if u ≠ "" then u else fallbackUrl (if r.name ≠ "" then r.name else "Hotel") city
      | none => fallbackUrl (if r.name ≠ "" then r.name else "Hotel") city }

/-- Lines 113 and 131-155 of `search_hotels_google`: the whole pipeline
after the HTTP response has been parsed into a JSON value. -/
def search_hotels_pure (data : JSON) (city_or_iata checkin checkout : String)
    (limit : Int) : List HotelRecord :=
  (_extract_hotels_from_serp_json data limit).map
    (assembleRow (_nights checkin checkout) (resolveCity city_or_iata))

/-- Truthiness of an environment variable: unset (`None`) and empty are
both falsy in `if not BRIGHT_API_KEY or not BRIGHT_SERP_ZONE`. -/
def credTruthy : Option String → Bool
  | none => false
  | some s => s != ""

/-- Outcome of the Bright Data POST once credentials are in place: either
a parsed JSON body, or any transport/HTTP/JSON failure (all of which the
caller's `except Exception` treats alike). -/
inductive SerpOutcome where
  | ok (data : JSON)
  | failure

/-- The exceptions that can escape `serp_direct` plus JSON parsing:
`BrightDataError` from `_require_creds`, or a transport-level error. -/
inductive SerpFailure where
  | configError (msg : String)
  | transport

/-- Embedding of `serp_direct` (lines 36-42) composed with `res.json()`: raises
`BrightDataError` when either credential is missing or empty, otherwise
passes the transport outcome through. -/
def serp_fetch (key zone : Option String) (t : SerpOutcome) : Except SerpFailure JSON :=
  if credTruthy key && credTruthy zone then
    match t with
    | .ok d => .ok d
    | .failure => .error .transport
  else .error (.configError "Set BRIGHTDATA_API_KEY and BRIGHTDATA_SERP_ZONE env vars")

/-- Embedding of `search_hotels_google` (lines 99-155).  The `try/except Exception`
around `serp_direct(url)` and `res.json()` catches every `SerpFailure` —
including the `BrightDataError` raised for missing credentials — and
returns the empty list; only a successful fetch reaches the extraction
pipeline. -/
def search_hotels_google (key zone : Option String) (t : SerpOutcome)
    (city_or_iata checkin checkout : String) (limit : Int) : List HotelRecord :=
  match serp_fetch key zone t with
  | .error _ => []
  | .ok data => search_hotels_pure data city_or_iata checkin checkout limit

/-- What the CLI entry point prints: a results object or an error object. -/
inductive CliOutput where
  | results (city checkin checkout : String) (adults : Int) (hotels : List HotelRecord)
  | errorOut (msg : String)

/-- The `__main__` block (lines 158-173).  It wraps the call in
`try/except BrightDataError`, but `search_hotels_google` is total in this
embedding — its own blanket handler already turned every failure into an
empty list — so the error branch is unreachable and the CLI always prints
a results object. -/
def cli_main (key zone : Option String) (t : SerpOutcome)
    (city checkin checkout : String) (adults limit : Int) : CliOutput :=
  .results city checkin checkout adults
    (search_hotels_google key zone t city checkin checkout limit)

/-- The compact dict returned by `normalize_place_summary`. -/
structure PlaceSummary where
  place_id : JSON
  name : JSON
  rating : JSON
  types : JSON
  location : JSON
  address : JSON

/-- The five direct projections plus an address, for a given location. -/
def placeBase (place : List (String × JSON)) (loc : JSON) : PlaceSummary :=
  { place_id := jget place "place_id"
  , name := jget place "name"
  , rating := jget place "rating"
  , types := jget place "types"
  , location := loc
  , address := pyOr (jget place "formatted_address") (jget place "vicinity") }

/-- Embedding of `normalize_place_summary` from `google_places_client.py`.  The
location is `place.get('geometry', {}).get('location')`: a missing
`geometry` key falls back to the empty dict, but a present non-dict value
(a number, a string, or JSON `null`, which Python hands back as `None`)
makes the second `.get` raise `AttributeError` — modelled as `none`. -/
def normalize_place_summary (place : List (String × JSON)) : Option PlaceSummary :=
  match place.lookup "geometry" with
  | none => some (placeBase place .null)
  | some (.obj g) => some (placeBase place (jget g "location"))
  | some _ => none

/-- The spec's description of price parsing, written with `dropWhile` and
`takeWhile` instead of the source's regex scan: skip to the first digit,
take the run of digits and thousands-separators, strip the separators,
read the digits. -/
def priceSpec (s : String) : Option Rat :=
  match s.data.dropWhile (fun c => !c.isDigit) with
  | [] => none
  | c :: t =>
    some ((digitsVal (((c :: t).takeWhile (fun d => d.isDigit || d = ',')).filter
      (fun d => d != ','))) : Rat)


/-! ## Concrete inputs used by witnesses and counterexamples -/

/-- Candidates named A, B, A in traversal order. -/
def c3data : JSON :=
  .obj [("results", .arr
    [.obj [("name", .str "A"), ("rating", .num 4)],
     .obj [("name", .str "B"), ("price", .str "$120")],
     .obj [("name", .str "A"), ("rating", .num 5)]])]

/-- Five qualifying candidates with distinct names in traversal order. -/
def c3five : JSON :=
  .arr [.obj [("name", .str "H1"), ("rating", .num 1)],
        .obj [("name", .str "H2"), ("rating", .num 2)],
        .obj [("name", .str "H3"), ("rating", .num 3)],
        .obj [("name", .str "H4"), ("rating", .num 4)],
        .obj [("name", .str "H5"), ("rating", .num 5)]]

/-- A tree with exactly one qualifying candidate. -/
def c9data : JSON := .obj [("name", .str "Solo"), ("price", .str "$90")]

/-- A row as extracted for a fully-populated candidate. -/
def c4row : Row :=
  { name := "Grand", rating := some 4, area := .str "Downtown"
  , price_usd := some 120, url := none }

/-- Two qualifying candidates: one priced `$0`, one with rating text `0`
and price `$100`. -/
def c4zero : JSON :=
  .arr [.obj [("name", .str "Zero Hotel"), ("price", .str "$0")],
        .obj [("name", .str "Rated Zero"), ("rating", .str "0"), ("price", .str "$100")]]

/-- One qualifying candidate carrying a source-provided deep link. -/
def c10data : JSON :=
  .obj [("name", .str "Linked"), ("rating", .num 4),
        ("url", .str "https://example.com/h1")]

/-! ## Helper lemmas -/

mutual
/-- The walk lists exactly the qualifying object nodes, in pre-order. -/
theorem walk_eq : (j : JSON) →
    walk j = ((objNodes j).filter (fun f => qualifies f)).map candidateOf
  | .null => rfl
  | .bool _ => rfl
  | .num _ => rfl
  | .str _ => rfl
  | .arr l => by rw [walk, objNodes, walkElems_eq l]
  | .obj f => by
      rw [walk, objNodes, walkFields_eq f, List.filter_cons]
      by_cases h : qualifies f <;> simp [h]
theorem walkFields_eq : (l : List (String × JSON)) →
    walkFields l = ((objNodesFields l).filter (fun f => qualifies f)).map candidateOf
  | [] => rfl
  | (_, v) :: t => by
      rw [walkFields, objNodesFields, List.filter_append, List.map_append,
        walk_eq v, walkFields_eq t]
theorem walkElems_eq : (l : List JSON) →
    walkElems l = ((objNodesElems l).filter (fun f => qualifies f)).map candidateOf
  | [] => rfl
  | v :: t => by
      rw [walkElems, objNodesElems, List.filter_append, List.map_append,
        walk_eq v, walkElems_eq t]
end

/-! ## Claim theorems -/

/-- C1: the claim says a missing `BRIGHTDATA_API_KEY` or
`BRIGHTDATA_SERP_ZONE` makes the hotel search fail fast, the
`BrightDataError` propagating out of `search_hotels_google` so that the
CLI prints an error object.  In the code the `BrightDataError` raised by
`_require_creds` inside `serp_direct` is caught by the blanket
`except Exception` in `search_hotels_google` (lines 124-129), which
returns the empty list — exactly the silent degradation reserved for
transport failures.  The CLI's own `except BrightDataError` handler is
therefore unreachable and it always prints a results object.  This
theorem evaluates the embedded code at the failing inputs: with either
credential missing the internal fetch does raise the configuration
error, yet `search_hotels_google` returns `[]` and the CLI prints a
results object with an empty list, for every transport outcome. -/
theorem C1_config_error_swallowed :
    ∀ (key zone : Option String) (t : SerpOutcome) (city checkin checkout : String)
      (adults limit : Int),
      serp_fetch none zone t =
        .error (.configError "Set BRIGHTDATA_API_KEY and BRIGHTDATA_SERP_ZONE env vars") ∧
      serp_fetch key none t =
        .error (.configError "Set BRIGHTDATA_API_KEY and BRIGHTDATA_SERP_ZONE env vars") ∧
      search_hotels_google none zone t city checkin checkout limit = [] ∧
      search_hotels_google key none t city checkin checkout limit = [] ∧
      cli_main none zone t city checkin checkout adults limit =
        .results city checkin checkout adults [] ∧
      cli_main key none t city checkin checkout adults limit =
        .results city checkin checkout adults [] := by
  intro key zone t city checkin checkout adults limit
  refine ⟨?_, ?_, ?_, ?_, ?_, ?_⟩ <;>
    simp [serp_fetch, search_hotels_google, cli_main, credTruthy, Bool.and_false]

/-- C2: the extractor walks the JSON tree in depth-first pre-order — an
object node is considered (and its candidate emitted) before its values
are recursed into, arrays recurse into every element, scalars are leaves
— and the candidate list is exactly one candidate per qualifying object
node (name present and rating or price text present, in the code's sense
of presence: a truthy alias-chain value), in pre-order.  Children of a
qualifying node are still walked, and for a tree with N qualifying
object nodes exactly N candidates are produced before dedup. -/
theorem C2_preorder_extraction :
    ∀ j : JSON,
      walk j = ((objNodes j).filter (fun f => qualifies f)).map candidateOf ∧
      (walk j).length = ((objNodes j).filter (fun f => qualifies f)).length :=
  fun j => ⟨walk_eq j, by rw [walk_eq j, List.length_map]⟩

/-- C5: `_nights` returns the whole-day difference between checkout and
checkin whenever both strings parse as `YYYY-MM-DD` dates and the
difference is at least 1; it returns 1 for identical dates, checkout
before checkin (difference at most 0), and for any parse failure.  It is
a total function, so it never raises. -/
theorem C5_nights_spec :
    ∀ checkin checkout : String,
      (∀ d0 d1 : Date, parseDate checkin = some d0 → parseDate checkout = some d1 →
          1 ≤ toOrdinal d1 - toOrdinal d0 →
          _nights checkin checkout = toOrdinal d1 - toOrdinal d0) ∧
      (∀ d0 d1 : Date, parseDate checkin = some d0 → parseDate checkout = some d1 →
          toOrdinal d1 - toOrdinal d0 ≤ 0 → _nights checkin checkout = 1) ∧
      ((parseDate checkin = none ∨ parseDate checkout = none) →
          _nights checkin checkout = 1) := by
  intro checkin checkout
  refine ⟨?_, ?_, ?_⟩
  · intro d0 d1 h0 h1 hd
    unfold _nights
    rw [h0, h1]
    exact max_eq_right hd
  · intro d0 d1 h0 h1 hd
    unfold _nights
    rw [h0, h1]
    have : toOrdinal d1 - toOrdinal d0 ≤ 1 := le_trans hd (by norm_num)
    exact max_eq_left this
  · intro h
    rcases h with h | h
    · unfold _nights
      rw [h]
    · rcases h0 : parseDate checkin with _ | d0 <;> unfold _nights <;> rw [h0, h]

/-- Witness for C5 at concrete inputs: three nights for a stay from
2025-12-05 to 2025-12-08, one night when the dates are swapped, one
night when the check-in string is not in `YYYY-MM-DD` form. -/
theorem C5_nights_spec_witness :
    _nights "2025-12-05" "2025-12-08" = 3 ∧ _nights "2025-12-08" "2025-12-05" = 1 ∧
    _nights "12/05/2025" "2025-12-08" = 1 := by
  refine ⟨?_, ?_, ?_⟩
  · exact ((C5_nights_spec "2025-12-05" "2025-12-08").1 ⟨2025, 12, 5⟩ ⟨2025, 12, 8⟩
      (by decide) (by decide) (by decide)).trans (by decide)
  · exact (C5_nights_spec "2025-12-08" "2025-12-05").2.1 ⟨2025, 12, 8⟩ ⟨2025, 12, 5⟩
      (by decide) (by decide) (by decide)
  · exact (C5_nights_spec "12/05/2025" "2025-12-08").2.2 (Or.inl (by decide))

/-- The dedup-and-truncate loop, while the output is still short of the
limit, yields the reversed accumulator followed by the rows of the
deduplicated remainder, truncated to the space that is left. -/
theorem postGo_spec :
    ∀ (l : List Candidate) (seen : List String) (out : List Row) (limit : Int),
      (out.length : Int) < limit →
      postGo l seen out limit =
        out.reverse ++ ((dedupGo seen l).map rowOf).take (limit - out.length).toNat := by
  intro l
  induction l with
  | nil =>
    intro seen out limit _
    simp [postGo, dedupGo]
  | cons c t ih =>
    intro seen out limit h
    by_cases hm : c.name ∈ seen
    · rw [postGo, dedupGo]
      simp only [hm, if_true]
      exact ih seen out limit h
    · rw [postGo, dedupGo]
      simp only [hm, if_false]
      by_cases hl : limit ≤ ((rowOf c :: out).length : Int)
      · rw [if_pos hl]
        have h1 : (limit - (out.length : Int)).toNat = 1 := by
          simp only [List.length_cons] at hl
          omega
        rw [List.map_cons, h1, List.take_succ_cons, List.take_zero, List.reverse_cons]
      · rw [if_neg hl]
        push_neg at hl
        rw [ih (c.name :: seen) (rowOf c :: out) limit hl]
        have h2 : (limit - (out.length : Int)).toNat =
            (limit - ((rowOf c :: out).length : Int)).toNat + 1 := by
          simp only [List.length_cons] at hl ⊢
          omega
        rw [List.map_cons, h2, List.take_succ_cons, List.reverse_cons, List.append_assoc,
          List.singleton_append]

/-- C3: for a positive limit, `_extract_hotels_from_serp_json` returns
exactly the first-occurrence-per-name deduplication of the candidates in
traversal order (case-sensitive exact name match, later duplicates
dropped, order preserved), truncated to the requested limit.  In
particular for limit 2 and five qualifying unique-name candidates the
output is the first two, and candidates named A, B, A come out as A, B
(see the witness). -/
theorem C3_dedup_truncate :
    ∀ (data : JSON) (limit : Int), 1 ≤ limit →
      _extract_hotels_from_serp_json data limit =
        ((dedupByName (walk data)).map rowOf).take limit.toNat := by
  intro data limit h
  have hp := postGo_spec (walk data) [] [] limit
    (by simp only [List.length_nil, Nat.cast_zero]; omega)
  simpa [_extract_hotels_from_serp_json, dedupByName] using hp

/-- Witness for C3: candidates A, B, A dedup to A, B (first occurrence
wins, order preserved), and five unique-name candidates with limit 2
yield exactly the first two in traversal order. -/
theorem C3_dedup_truncate_witness :
    (_extract_hotels_from_serp_json c3data 12).map Row.name = ["A", "B"] ∧
    (_extract_hotels_from_serp_json c3five 2).map Row.name = ["H1", "H2"] := by
  constructor
  · rw [C3_dedup_truncate c3data 12 (by norm_num)]
    rfl
  · rw [C3_dedup_truncate c3five 2 (by norm_num)]
    rfl

/-- With a nonpositive limit the truncation check (which runs only after
a row has been appended) fires at the first kept candidate: the result
is the first deduplicated row alone, or nothing when there are no
candidates. -/
theorem postGo_nonpos :
    ∀ (l : List Candidate) (seen : List String) (limit : Int), limit ≤ 0 →
      postGo l seen [] limit =
        (match dedupGo seen l with
         | [] => []
         | c :: _ => [rowOf c]) := by
  intro l
  induction l with
  | nil => intro seen limit _; rfl
  | cons c t ih =>
    intro seen limit h
    by_cases hm : c.name ∈ seen
    · rw [postGo, dedupGo]
      simp only [hm, if_true]
      exact ih seen limit h
    · rw [postGo, dedupGo]
      simp only [hm, if_false]
      have hl : limit ≤ ((List.length [rowOf c] : Nat) : Int) := by
        simp
        omega
      rw [if_pos hl]
      rfl

/-- C9: for every limit at most 0 and every input holding at least one
qualifying candidate, the extractor returns exactly one record rather
than an empty list, because the `len(out) >= limit` check runs only
after a row has been appended; the output length is
`min(number of unique names, max(limit, 1))`, i.e. `min(uniques, 1)`
here, not `limit`. -/
theorem C9_nonpositive_limit :
    ∀ (data : JSON) (limit : Int), limit ≤ 0 →
      (_extract_hotels_from_serp_json data limit).length =
        min (dedupByName (walk data)).length 1 ∧
      (walk data ≠ [] → (_extract_hotels_from_serp_json data limit).length = 1) := by
  intro data limit h
  have hp := postGo_nonpos (walk data) [] limit h
  constructor
  · rw [_extract_hotels_from_serp_json, hp, dedupByName]
    cases hdg : dedupGo [] (walk data) with
    | nil => simp
    | cons c cs => simp
  · intro hne
    rw [_extract_hotels_from_serp_json, hp]
    cases hw : walk data with
    | nil => exact absurd hw hne
    | cons c cs => simp [dedupGo]

/-- Witness for C9: limit 0 on a tree with one qualifying candidate
still returns one record. -/
theorem C9_nonpositive_limit_witness :
    (_extract_hotels_from_serp_json c9data 0).length = 1 := by
  have hlen : (walk c9data).length = 1 := rfl
  exact (C9_nonpositive_limit c9data 0 (by norm_num)).2
    (fun hnil => by rw [hnil] at hlen; simp at hlen)

/-- The head of a nonempty `dropWhile` result falsifies the predicate. -/
theorem dropWhileHeadNot :
    ∀ (p : Char → Bool) (l : List Char) (c : Char) (t : List Char),
      l.dropWhile p = c :: t → p c = false := by
  intro p l
  induction l with
  | nil =>
    intro c t h
    simp [List.dropWhile] at h
  | cons a l ih =>
    intro c t h
    rw [List.dropWhile_cons] at h
    by_cases hp : p a
    · rw [if_pos hp] at h
      exact ih c t h
    · rw [if_neg hp] at h
      injection h with h1 _
      subst h1
      simpa using hp

/-- The source's regex scan for `\d[\d,]*` agrees with the spec's
description: skip to the first digit, then take the run of digits and
commas. -/
theorem priceRun_eq : ∀ l : List Char,
    priceRun l =
      (match l.dropWhile (fun c => !c.isDigit) with
       | [] => none
       | c :: t => some (c :: t.takeWhile (fun d => d.isDigit || d = ','))) := by
  intro l
  induction l with
  | nil => rfl
  | cons c t ih =>
    by_cases hd : c.isDigit
    · rw [priceRun, if_pos hd, List.dropWhile_cons]
      simp [hd]
    · rw [priceRun, if_neg hd, ih, List.dropWhile_cons]
      simp [hd]

/-- C6: price parsing extracts the first contiguous run of digits and
thousands-separators, strips the separators and returns the digits as a
number (`priceSpec` is that description, written independently of the
source's scan); a missing or empty text, or a text with no digit, yields
`none`; the fractional part is dropped, so `$123.45 per night` parses to
123 and `N/A` to `none`. -/
theorem C6_price_parsing :
    _to_price_usd none = none ∧
    _to_price_usd (some "") = none ∧
    (∀ s : String, _to_price_usd (some s) = priceSpec s) ∧
    _to_price_usd (some "$123.45 per night") = some 123 ∧
    _to_price_usd (some "N/A") = none := by
  refine ⟨rfl, rfl, ?_, by decide, rfl⟩
  intro s
  by_cases he : s = ""
  · subst he
    rfl
  · simp only [_to_price_usd, priceSpec]
    rw [if_neg he, priceRun_eq s.data]
    cases hdw : s.data.dropWhile (fun c => !c.isDigit) with
    | nil => rfl
    | cons c t =>
      have hc : c.isDigit = true := by
        simpa using dropWhileHeadNot _ s.data c t hdw
      simp [List.takeWhile_cons, hc]

/-- C7: the resolved city is the `CITY_MAP` entry of the upper-cased
input when that is a key, and the input itself otherwise; in particular
`MIA` resolves to `Miami` (the value the fixed mapping assigns to it),
not `Fort Lauderdale`. -/
theorem C7_city_resolution :
    (∀ s v : String, CITY_MAP.lookup (pyUpper s) = some v → resolveCity s = v) ∧
    (∀ s : String, CITY_MAP.lookup (pyUpper s) = none → resolveCity s = s) ∧
    resolveCity "MIA" = "Miami" ∧ resolveCity "mia" = "Miami" ∧
    resolveCity "Miami Beach" = "Miami Beach" ∧ resolveCity "FLL" = "Fort Lauderdale" := by
  refine ⟨?_, ?_, rfl, rfl, rfl, rfl⟩
  · intro s v h
    rw [resolveCity, h]
    rfl
  · intro s h
    rw [resolveCity, h]
    rfl

/-- Witness for C7: a lower-case code present in the mapping resolves
through the first branch of the theorem. -/
theorem C7_city_resolution_witness :
    CITY_MAP.lookup (pyUpper "lax") = some "Los Angeles" ∧
    resolveCity "lax" = "Los Angeles" :=
  ⟨rfl, C7_city_resolution.1 "lax" "Los Angeles" rfl⟩

/-- C4 (amended): for each deduplicated candidate row, in order, the
assembled record has `name` defaulted to `Hotel` exactly when the
extracted name is empty, `area` defaulted to `Central` exactly when the
extracted area is falsy, `stars` defaulted to 3.5 when the rating is
absent — and also when it is present with value 0, because the default
is applied with `r.get("rating") or 3.5` — `total_usd` equal to
`price_per_night × nights` rounded to two decimals when the price is a
valid number and the product is nonzero, and `None` both when the price
is absent and when the product is 0 (the code guards the rounding with
`if total`, which is falsy at 0.0), and `url` equal to the candidate's
extracted URL when present and non-empty, otherwise the Google-Maps
fallback parameterized by the URL-encoded `name city` string.  The
original claim's "stars defaulted exactly when the rating is absent or
unparseable" and "total_usd non-null whenever price_per_night is a valid
number" fail at rating 0 and price 0; see the counterexample. -/
theorem C4_record_assembly :
    ∀ (nights : Int) (city : String) (r : Row),
      ((assembleRow nights city r).price_per_night_usd = r.price_usd) ∧
      (r.name ≠ "" → (assembleRow nights city r).name = r.name) ∧
      (r.name = "" → (assembleRow nights city r).name = "Hotel") ∧
      (truthy r.area = true → (assembleRow nights city r).area = r.area) ∧
      (truthy r.area = false → (assembleRow nights city r).area = .str "Central") ∧
      ((r.rating = none ∨ r.rating = some 0) →
        (assembleRow nights city r).stars = (7 : Rat) / 2) ∧
      (∀ q, r.rating = some q → q ≠ 0 → (assembleRow nights city r).stars = q) ∧
      (r.price_usd = none → (assembleRow nights city r).total_usd = none) ∧
      (∀ q, r.price_usd = some q → q * (nights : Rat) ≠ 0 →
        (assembleRow nights city r).total_usd = some (round2 (q * (nights : Rat)))) ∧
      (∀ q, r.price_usd = some q → q * (nights : Rat) = 0 →
        (assembleRow nights city r).total_usd = none) ∧
      (∀ u, r.url = some u → u ≠ "" → (assembleRow nights city r).url = u) ∧
      (r.url = none →
        (assembleRow nights city r).url = fallbackUrl (assembleRow nights city r).name city) := by
  intro nights city r
  refine ⟨rfl, ?_, ?_, ?_, ?_, ?_, ?_, ?_, ?_, ?_, ?_, ?_⟩
  · intro h
    simp [assembleRow, h]
  · intro h
    simp [assembleRow, h]
  · intro h
    simp [assembleRow, h]
  · intro h
    simp [assembleRow, h]
  · intro h
    rcases h with h | h <;> simp [assembleRow, h]
  · intro q h hq
    simp [assembleRow, h, hq]
  · intro h
    simp [assembleRow, h]
  · intro q h hq
    simp [assembleRow, h, hq]
  · intro q h hq
    simp [assembleRow, h, hq]
  · intro u h hu
    simp [assembleRow, h, hu]
  · intro h
    simp [assembleRow, h]

unseal Rat.mul Rat.inv Rat.add Rat.sub in
/-- Witness for C4 at a concrete row: rating 4 survives, the total is
120 × 3 = 360, the name is kept, and a missing URL falls back to the
map-search link. -/
theorem C4_record_assembly_witness :
    (assembleRow 3 "Miami" c4row).stars = 4 ∧
    (assembleRow 3 "Miami" c4row).total_usd = some 360 ∧
    (assembleRow 3 "Miami" c4row).name = "Grand" ∧
    (assembleRow 3 "Miami" c4row).url = fallbackUrl "Grand" "Miami" := by
  have h := C4_record_assembly 3 "Miami" c4row
  refine ⟨?_, ?_, ?_, ?_⟩
  · exact h.2.2.2.2.2.2.1 4 rfl (by norm_num)
  · exact (h.2.2.2.2.2.2.2.2.1 120 rfl (by norm_num)).trans (by decide)
  · exact h.2.1 (by decide)
  · have hn : (assembleRow 3 "Miami" c4row).name = "Grand" := h.2.1 (by decide)
    exact (h.2.2.2.2.2.2.2.2.2.2.2 rfl).trans (by rw [hn])

unseal Rat.mul Rat.inv Rat.add Rat.sub in
/-- Counterexample for C4 as stated.  The first element of `c4zero`
carries the valid price 0 (from price text `$0`): the output record has
`price_per_night_usd = some 0` — a valid number — yet `total_usd = none`,
where the claim requires `some (round2 0) = some 0`.  The second element
carries the present and parseable rating text `0`: its row rating is
`some 0`, yet `stars` is defaulted to 3.5, where the claim requires
stars 0. -/
theorem C4_counterexample :
    (search_hotels_pure c4zero "MIA" "2025-12-05" "2025-12-08" 12).map
        (fun rec => (rec.price_per_night_usd, rec.total_usd, rec.stars)) =
      [(some 0, none, (7 : Rat) / 2), (some 100, some 300, (7 : Rat) / 2)] ∧
    (_extract_hotels_from_serp_json c4zero 12).map Row.rating = [none, some 0] := by
  constructor
  · decide
  · decide

/-- C8 (amended): for every raw place object whose `geometry` value, when
the key is present, is a JSON object, `normalize_place_summary` returns a
record with exactly the fields `place_id`, `name`, `rating`, `types`,
`location` (the `location` member of the geometry object) and `address`
(`formatted_address`, or `vicinity` when that is absent or falsy), each
null when the corresponding source key is missing; in particular a place
holding only `place_id` and `name` yields a summary whose other four
fields are all null, with no raised error.  The original claim's "for
every raw place object" fails when `geometry` is present but not an
object (for example a number or JSON null): then
`place.get('geometry', {}).get('location')` raises `AttributeError` —
see the counterexample. -/
theorem C8_place_summary :
    (∀ place : List (String × JSON),
      (place.lookup "geometry" = none ∨ (∃ g, place.lookup "geometry" = some (.obj g))) →
      ∃ s, normalize_place_summary place = some s ∧
        (place.lookup "place_id" = none → s.place_id = .null) ∧
        (∀ v, place.lookup "place_id" = some v → s.place_id = v) ∧
        (place.lookup "name" = none → s.name = .null) ∧
        (∀ v, place.lookup "name" = some v → s.name = v) ∧
        (place.lookup "rating" = none → s.rating = .null) ∧
        (place.lookup "types" = none → s.types = .null) ∧
        (place.lookup "geometry" = none → s.location = .null) ∧
        (∀ g, place.lookup "geometry" = some (.obj g) → s.location = jget g "location") ∧
        ((place.lookup "formatted_address" = none ∧ place.lookup "vicinity" = none) →
          s.address = .null) ∧
        (∀ v, place.lookup "formatted_address" = some v → truthy v = true →
          s.address = v)) ∧
    normalize_place_summary [("place_id", .str "p1"), ("name", .str "Blue Bottle")] =
      some ⟨.str "p1", .str "Blue Bottle", .null, .null, .null, .null⟩ := by
  constructor
  · intro place hg
    have base : ∀ loc : JSON,
        ((place.lookup "place_id" = none → (placeBase place loc).place_id = .null) ∧
         (∀ v, place.lookup "place_id" = some v → (placeBase place loc).place_id = v) ∧
         (place.lookup "name" = none → (placeBase place loc).name = .null) ∧
         (∀ v, place.lookup "name" = some v → (placeBase place loc).name = v) ∧
         (place.lookup "rating" = none → (placeBase place loc).rating = .null) ∧
         (place.lookup "types" = none → (placeBase place loc).types = .null) ∧
         ((place.lookup "formatted_address" = none ∧ place.lookup "vicinity" = none) →
           (placeBase place loc).address = .null) ∧
         (∀ v, place.lookup "formatted_address" = some v → truthy v = true →
           (placeBase place loc).address = v)) := by
      intro loc
      refine ⟨?_, ?_, ?_, ?_, ?_, ?_, ?_, ?_⟩
      · intro h
        simp [placeBase, jget, h]
      · intro v h
        simp [placeBase, jget, h]
      · intro h
        simp [placeBase, jget, h]
      · intro v h
        simp [placeBase, jget, h]
      · intro h
        simp [placeBase, jget, h]
      · intro h
        simp [placeBase, jget, h]
      · intro h
        simp [placeBase, pyOr, jget, h.1, h.2, truthy]
      · intro v h htr
        simp [placeBase, pyOr, jget, h, htr]
    rcases hg with hg | ⟨g, hg⟩
    · refine ⟨placeBase place .null, ?_, ?_⟩
      · rw [normalize_place_summary, hg]
      · obtain ⟨b1, b2, b3, b4, b5, b6, b7, b8⟩ := base .null
        exact ⟨b1, b2, b3, b4, b5, b6, fun _ => rfl,
          fun g' hg' => absurd (hg ▸ hg') (by simp), b7, b8⟩
    · refine ⟨placeBase place (jget g "location"), ?_, ?_⟩
      · rw [normalize_place_summary, hg]
      · obtain ⟨b1, b2, b3, b4, b5, b6, b7, b8⟩ := base (jget g "location")
        refine ⟨b1, b2, b3, b4, b5, b6, fun h => absurd (hg ▸ h) (by simp), ?_, b7, b8⟩
        intro g' hg'
        rw [hg] at hg'
        injection hg' with he
        injection he with he'
        rw [he']
        rfl
  · rfl

/-- Witness for C8: a place with a proper geometry object goes through
the first branch of the theorem, projecting the nested location and
nulling the missing rating. -/
theorem C8_place_summary_witness :
    ∃ s, normalize_place_summary
        [("name", .str "Cafe"), ("geometry", .obj [("location", .str "LOC")])] = some s ∧
      s.location = .str "LOC" ∧ s.rating = .null := by
  obtain ⟨s, hs, _, _, _, _, h5, _, _, h8, _, _⟩ :=
    C8_place_summary.1 [("name", .str "Cafe"), ("geometry", .obj [("location", .str "LOC")])]
      (Or.inr ⟨[("location", .str "LOC")], rfl⟩)
  exact ⟨s, hs, (h8 [("location", .str "LOC")] rfl).trans rfl, h5 rfl⟩

/-- Counterexample for C8 as stated: a raw place object whose `geometry`
value is the number 5 makes `.get('location')` raise `AttributeError`
(`none` in the embedding), so `normalize_place_summary` does not return
a record for every raw place object. -/
theorem C8_counterexample :
    normalize_place_summary
      [("place_id", .str "p1"), ("name", .str "X"), ("geometry", .num 5)] = none := rfl

/-- Any URL returned by the `_pick_url` loop passed the
`v.startswith("http")` test. -/
theorem pickUrlGo_http :
    ∀ (ks : List String) (f : List (String × JSON)) (u : String),
      pickUrlGo f ks = some u → pyStartsWith u "http" = true := by
  intro ks
  induction ks with
  | nil =>
    intro f u h
    exact Option.noConfusion h
  | cons k t ih =>
    intro f u h
    rw [pickUrlGo] at h
    split at h
    · split at h
      next hcond =>
        injection h with h'
        exact h' ▸ hcond
      next => exact ih f u h
    · exact ih f u h

mutual
/-- Every candidate the walk produces carries either no URL or one that
starts with `http`. -/
theorem walkUrlInv : (j : JSON) →
    ∀ c ∈ walk j, ∀ u, c.url = some u → pyStartsWith u "http" = true
  | .null => by simp [walk]
  | .bool _ => by simp [walk]
  | .num _ => by simp [walk]
  | .str _ => by simp [walk]
  | .arr l => by
      intro c hc u hu
      rw [walk] at hc
      exact walkElemsUrlInv l c hc u hu
  | .obj f => by
      intro c hc u hu
      rw [walk] at hc
      rcases List.mem_append.mp hc with h1 | h2
      · by_cases hq : qualifies f
        · rw [if_pos hq] at h1
          have he : c = candidateOf f := List.mem_singleton.mp h1
          subst he
          exact pickUrlGo_http URL_KEYS f u hu
        · rw [if_neg hq] at h1
          exact absurd h1 (List.not_mem_nil c)
      · exact walkFieldsUrlInv f c h2 u hu
theorem walkFieldsUrlInv : (l : List (String × JSON)) →
    ∀ c ∈ walkFields l, ∀ u, c.url = some u → pyStartsWith u "http" = true
  | [] => by simp [walkFields]
  | (_, v) :: t => by
      intro c hc u hu
      rw [walkFields] at hc
      rcases List.mem_append.mp hc with h1 | h2
      · exact walkUrlInv v c h1 u hu
      · exact walkFieldsUrlInv t c h2 u hu
theorem walkElemsUrlInv : (l : List JSON) →
    ∀ c ∈ walkElems l, ∀ u, c.url = some u → pyStartsWith u "http" = true
  | [] => by simp [walkElems]
  | v :: t => by
      intro c hc u hu
      rw [walkElems] at hc
      rcases List.mem_append.mp hc with h1 | h2
      · exact walkUrlInv v c h1 u hu
      · exact walkElemsUrlInv t c h2 u hu
end

/-- Every row the dedup-and-truncate loop emits is either from the
accumulator or the row of a listed candidate. -/
theorem postGo_mem :
    ∀ (l : List Candidate) (seen : List String) (out : List Row) (limit : Int) (r : Row),
      r ∈ postGo l seen out limit → r ∈ out ∨ ∃ c ∈ l, r = rowOf c := by
  intro l
  induction l with
  | nil =>
    intro seen out limit r h
    rw [postGo] at h
    exact Or.inl (List.mem_reverse.mp h)
  | cons c t ih =>
    intro seen out limit r h
    rw [postGo] at h
    by_cases hm : c.name ∈ seen
    · rw [if_pos hm] at h
      rcases ih seen out limit r h with h1 | ⟨c', hc', he⟩
      · exact Or.inl h1
      · exact Or.inr ⟨c', List.mem_cons_of_mem c hc', he⟩
    · rw [if_neg hm] at h
      by_cases hl : limit ≤ (((rowOf c :: out).length : Nat) : Int)
      · rw [if_pos hl] at h
        rcases List.mem_cons.mp (List.mem_reverse.mp h) with he | h2
        · exact Or.inr ⟨c, List.mem_cons_self c t, he⟩
        · exact Or.inl h2
      · rw [if_neg hl] at h
        rcases ih (c.name :: seen) (rowOf c :: out) limit r h with h1 | ⟨c', hc', he⟩
        · rcases List.mem_cons.mp h1 with he | h2
          · exact Or.inr ⟨c, List.mem_cons_self c t, he⟩
          · exact Or.inl h2
        · exact Or.inr ⟨c', List.mem_cons_of_mem c hc', he⟩

/-- The constructed Google-Maps fallback URL begins with `http` (indeed
`https`) and is nonempty, whatever gets encoded into the query. -/
theorem fallbackUrl_http :
    ∀ name city : String,
      pyStartsWith (fallbackUrl name city) "http" = true ∧ fallbackUrl name city ≠ "" := by
  intro name city
  have hdata : (fallbackUrl name city).data =
      'h' :: 't' :: 't' :: 'p' ::
        ("s://www.google.com/maps/search/?api=1&query=".data ++
          (quote_plus (name ++ " " ++ city)).data) := by
    rw [fallbackUrl, String.data_append]
    rfl
  constructor
  · rw [pyStartsWith, hdata, show "http".data = ['h', 't', 't', 'p'] from rfl]
    simp [List.isPrefixOf]
  · intro h
    have hd : (fallbackUrl name city).data = [] := by rw [h]
    rw [hdata] at hd
    exact absurd hd (by simp)

/-- A string starting with `http` is nonempty. -/
theorem startsWithHttpNe :
    ∀ u : String, pyStartsWith u "http" = true → u ≠ "" := by
  intro u hp he
  subst he
  rw [show pyStartsWith "" "http" = false from rfl] at hp
  exact Bool.noConfusion hp

/-- The assembled record's URL starts with `http` and is nonempty
whenever any extracted URL in the row does. -/
theorem assembleRow_url :
    ∀ (nights : Int) (city : String) (r : Row),
      (∀ u, r.url = some u → pyStartsWith u "http" = true) →
      pyStartsWith (assembleRow nights city r).url "http" = true ∧
      (assembleRow nights city r).url ≠ "" := by
  intro nights city r hinv
  cases hru : r.url with
  | none =>
    have hu : (assembleRow nights city r).url =
        fallbackUrl (if r.name ≠ "" then r.name else "Hotel") city := by
      simp [assembleRow, hru]
    rw [hu]
    exact fallbackUrl_http _ city
  | some u =>
    have hs := hinv u hru
    have hne := startsWithHttpNe u hs
    have hu : (assembleRow nights city r).url = u := by
      simp [assembleRow, hru, hne]
    rw [hu]
    exact ⟨hs, hne⟩

/-- C10: invariant on every record returned by the hotel pipeline — the
`url` field is a nonempty string beginning with `http`.  An extracted
URL is accepted by `_pick_url` only when it is a string starting with
`http`, and otherwise the constructed Google-Maps fallback (which begins
with `https`) is used. -/
theorem C10_url_invariant :
    (∀ (f : List (String × JSON)) (u : String),
        _pick_url f = some u → pyStartsWith u "http" = true) ∧
    (∀ (data : JSON) (city checkin checkout : String) (limit : Int) (rec : HotelRecord),
        rec ∈ search_hotels_pure data city checkin checkout limit →
        pyStartsWith rec.url "http" = true ∧ rec.url ≠ "") := by
  constructor
  · intro f u h
    exact pickUrlGo_http URL_KEYS f u h
  · intro data city checkin checkout limit rec hrec
    rw [search_hotels_pure] at hrec
    rcases List.mem_map.mp hrec with ⟨row, hrow, he⟩
    subst he
    apply assembleRow_url
    intro u hu
    rw [_extract_hotels_from_serp_json] at hrow
    rcases postGo_mem (walk data) [] [] limit row hrow with h1 | ⟨c, hc, he'⟩
    · exact absurd h1 (List.not_mem_nil row)
    · subst he'
      exact walkUrlInv data c hc u hu

/-- Witness for C10: a record with an extracted deep link keeps it, and
it starts with `http`. -/
theorem C10_url_invariant_witness :
    pyStartsWith "https://example.com/h1" "http" = true ∧
    ("https://example.com/h1" : String) ≠ "" := by
  have h2 := C10_url_invariant.2 c10data "MIA" "2025-12-05" "2025-12-08" 12
    ⟨"Linked", .str "Central", 4, none, none, "https://example.com/h1"⟩
    (by rw [show search_hotels_pure c10data "MIA" "2025-12-05" "2025-12-08" 12 =
          [⟨"Linked", .str "Central", 4, none, none, "https://example.com/h1"⟩] from rfl]
        exact List.mem_singleton.mpr rfl)
  exact h2

end TravelAgent
